import Mathlib

/-!
Shallow embedding of the keploy-go-demo-app HTTP service family.

The repository holds three near-identical Go programs:
* variant A — first half of `main.go`: `/healthz`, single-kind handlers with
  fixed payloads, and the aggregate handlers `handleRedisMongo`,
  `handleTriple`, `handleAllDBs`, `handleKitchenSink`;
* variant B — second half of `main.go`: input-driven handlers
  `handleRedis`, `handleMongo`, `handlePostgres`, `handleMySQL`, `handleAll`;
* variant C — `src/unnamed/part_001`: `handleRedisOnly` … `handleMySQLOnly`
  plus `createItem` (`POST /api/item`) and `getItem` (`GET /api/item/:id`).

Backends are modelled as explicit state (association lists for the Redis
key space and the Mongo collection, insert-ordered lists of `name` values
for the two SQL tables).  Each backend call of a handler takes a `Fault`
oracle saying whether the underlying driver call fails (network error,
driver error, …) and with which message; this is the only source of
non-determinism in the Go code once the stores are made explicit.  Every
handler returns the HTTP response, the successor state, and the trace of
backend operations it attempted, in order.
-/

namespace MultiKind

/-- The `Item` struct of variant C: `{id, name, value}` with `id` doubling
as the Mongo `_id`. -/
structure Item where
  id : String
  name : String
  value : String
deriving DecidableEq, Repr

/-- JSON-ish values appearing in response bodies. `doc` is a flat
string-valued BSON document as decoded into `bson.M` (timestamps are kept
in their rendered form), `item` an `Item` serialized as an object, `null`
the JSON null produced by a never-assigned `bson.M`. -/
inductive JVal where
  | str (s : String)
  | num (n : Int)
  | doc (fields : List (String × String))
  | item (it : Item)
  | null
deriving DecidableEq, Repr

/-- An HTTP response: status code plus JSON object body, as the ordered
list of key/value pairs the handler put into its `gin.H`. -/
structure Response where
  status : Nat
  body : List (String × JVal)
deriving DecidableEq, Repr

/-- One attempted backend driver call. `redisSet` records the expiry the
handler passed, in seconds. -/
inductive Op where
  | redisSet (key val : String) (expirySec : Nat)
  | redisGet (key : String)
  | mongoUpsert (id : String)
  | mongoInsert (name : String)
  | mongoFindId (id : String)
  | mongoFindName (name : String)
  | pgInsert (name : String)
  | pgSelect
  | myInsert (name : String)
  | mySelect
  | httpGet (url : String)
deriving DecidableEq, Repr

/-- Outcome oracle for a single backend driver call: either the call goes
through, or the driver returns an error with the given message. -/
inductive Fault where
  | ok
  | fail (msg : String)
deriving DecidableEq, Repr

/-- Backend state shared by the handlers of one variant.

* `mongo` — the `_id`-keyed documents (variants B and C address the
  collection by `_id`); each document is a flat field map, `_id` being the
  association key.
* `mongoDocs` — the insert-ordered documents of variant A, which inserts
  anonymous documents and queries them by their `name` field.
* `redis` — the key space; first match wins, a set conses in front.
* `pg`, `my` — the `name` column of the two `items` tables in insert
  order (the `SERIAL`/`AUTO_INCREMENT` id grows with the position). -/
structure St where
  mongo : List (String × List (String × String)) := []
  mongoDocs : List (List (String × String)) := []
  redis : List (String × String) := []
  pg : List String := []
  my : List String := []
deriving DecidableEq, Repr

/-- The empty initial state: all backends empty. -/
def St0 : St := {}

/-- Field merge of a Mongo `$set`: updated fields win, remaining fields of
the old document are kept. -/
def mergeFields (old upd : List (String × String)) : List (String × String) :=
  upd ++ old.filter (fun p => (List.lookup p.1 upd).isNone)

/-- Model of UpdateOne with an `_id` filter, a `$set` update and
`upsert:true`: merge into the existing document, or insert a fresh one. -/
def mongoUpsertDoc (m : List (String × List (String × String)))
    (id : String) (upd : List (String × String)) :
    List (String × List (String × String)) :=
  match List.lookup id m with
  | some old => (id, mergeFields old upd) :: m
  | none => (id, upd) :: m

/-- Holds of a `redisSet` op whose expiry lies in the 60-second to
10-minute band the spec names; every non-set op passes vacuously. -/
def expiryOk : Op → Bool
  | .redisSet _ _ e => 60 ≤ e && e ≤ 600
  | _ => true

/-- Recognize a cache (Redis) write. -/
def isRedisSet : Op → Bool
  | .redisSet _ _ _ => true
  | _ => false

/-- Recognize a document-store (Mongo) write. -/
def isMongoWrite : Op → Bool
  | .mongoUpsert _ => true
  | .mongoInsert _ => true
  | _ => false

/-- True when an op matching `p` occurs in the trace strictly before the
first op matching `q`. -/
def precedes (p q : Op → Bool) (t : List Op) : Bool :=
  match t.findIdx? p, t.findIdx? q with
  | some i, some j => i < j
  | _, _ => false

/-! ### Request bodies and `ShouldBindJSON` into `Item`

`createItem` binds its JSON body with gin's `ShouldBindJSON`, i.e.
`encoding/json` unmarshalling followed by validator tags — and `Item`
carries no `binding` tags, so only unmarshalling can fail. -/

/-- A JSON field value as far as binding into a `string` struct field can
tell them apart. -/
inductive ReqVal where
  | str (s : String)
  | num (n : Int)
deriving DecidableEq, Repr

/-- A request body: syntactically invalid JSON, valid JSON that is not an
object, or an object with the given fields. -/
inductive ReqBody where
  | malformed
  | notObject
  | obj (fields : List (String × ReqVal))
deriving DecidableEq, Repr

/-- Unmarshal one `string` struct field: a missing field keeps the zero
value, a non-string field is a type error. -/
def getStrField (fields : List (String × ReqVal)) (k : String) :
    Except String String :=
  match List.lookup k fields with
  | none => .ok ""
  | some (.str s) => .ok s
  | some (.num _) =>
      .error ("json: cannot unmarshal number into Go struct field Item."
        ++ k ++ " of type string")

/-- Binding of the request body into the `Item` struct, as gin's
ShouldBindJSON does it. -/
def bindJSONItem : ReqBody → Except String Item
  | .malformed => .error "invalid character in request body"
  | .notObject =>
      .error "json: cannot unmarshal value into Go value of type main.Item"
  | .obj fields => do
      let i ← getStrField fields "id"
      let n ← getStrField fields "name"
      let v ← getStrField fields "value"
      pure ⟨i, n, v⟩

/-! ### Variant C handlers (`src/unnamed/part_001`) -/

/-- GET /redis/:val of variant C: SET val=val with a 10-minute expiry, then
GET it back; fail-fast with 500 on either driver error. -/
def handleRedisOnly (val : String) (setF getF : Fault) (st : St) :
    Response × St × List Op :=
  match setF with
  | .fail msg =>
      (⟨500, [("error", .str ("redis SET: " ++ msg))]⟩, st,
        [Op.redisSet val val 600])
  | .ok =>
    let st1 := { st with redis := (val, val) :: st.redis }
    match getF with
    | .fail msg =>
        (⟨500, [("error", .str ("redis GET: " ++ msg))]⟩, st1,
          [Op.redisSet val val 600, Op.redisGet val])
    | .ok =>
      match List.lookup val st1.redis with
      | none =>
          (⟨500, [("error", .str "redis GET: redis: nil")]⟩, st1,
            [Op.redisSet val val 600, Op.redisGet val])
      | some v =>
          (⟨200, [("source", .str "redis"), ("value", .str v)]⟩, st1,
            [Op.redisSet val val 600, Op.redisGet val])

/-- GET /mongo/:val of variant C: upsert the document with the given id
(its `$set` carries `_id` and `value`), then find and return it;
fail-fast with 500 on either driver error. -/
def handleMongoOnly (val : String) (updF findF : Fault) (st : St) :
    Response × St × List Op :=
  match updF with
  | .fail msg =>
      (⟨500, [("error", .str ("mongo upsert: " ++ msg))]⟩, st,
        [Op.mongoUpsert val])
  | .ok =>
    let st1 := { st with mongo := mongoUpsertDoc st.mongo val [("value", val)] }
    match findF with
    | .fail msg =>
        (⟨500, [("error", .str ("mongo find: " ++ msg))]⟩, st1,
          [Op.mongoUpsert val, Op.mongoFindId val])
    | .ok =>
      match List.lookup val st1.mongo with
      | none =>
          (⟨500, [("error", .str "mongo find: mongo: no documents in result")]⟩,
            st1, [Op.mongoUpsert val, Op.mongoFindId val])
      | some fields =>
          (⟨200, [("source", .str "mongo"), ("doc", .doc (("_id", val) :: fields))]⟩,
            st1, [Op.mongoUpsert val, Op.mongoFindId val])

/-- POST /api/item of variant C: bind the JSON body into `Item` (400 on a
bind error), upsert the item into Mongo under its id, then SET the cache
key "item:"++id to the item's value with a 10-minute expiry; fail-fast
with 500 on either driver error, else 200 with a created confirmation. -/
def createItem (body : ReqBody) (mongoF redisF : Fault) (st : St) :
    Response × St × List Op :=
  match bindJSONItem body with
  | .error msg => (⟨400, [("error", .str msg)]⟩, st, [])
  | .ok item =>
    match mongoF with
    | .fail msg =>
        (⟨500, [("error", .str ("mongo: " ++ msg))]⟩, st,
          [Op.mongoUpsert item.id])
    | .ok =>
      let st1 := { st with
        mongo := mongoUpsertDoc st.mongo item.id
          [("name", item.name), ("value", item.value)] }
      match redisF with
      | .fail msg =>
          (⟨500, [("error", .str ("redis: " ++ msg))]⟩, st1,
            [Op.mongoUpsert item.id,
             Op.redisSet ("item:" ++ item.id) item.value 600])
      | .ok =>
        let st2 := { st1 with
          redis := ("item:" ++ item.id, item.value) :: st1.redis }
        (⟨200, [("status", .str "created"), ("id", .str item.id)]⟩, st2,
          [Op.mongoUpsert item.id,
           Op.redisSet ("item:" ++ item.id) item.value 600])

/-- Decode a stored flat document into the `Item` struct, as the BSON
decoder does: the association key is `_id`, absent fields keep their zero
value. -/
def decodeItem (id : String) (fields : List (String × String)) : Item :=
  ⟨id, (List.lookup "name" fields).getD "", (List.lookup "value" fields).getD ""⟩

/-- GET /api/item/:id of variant C: find the document by id (404 on any
find or decode error), then best-effort read the cache key "item:"++id,
discarding its error; 200 with the item and the cached value. -/
def getItem (id : String) (mongoF redisF : Fault) (st : St) :
    Response × St × List Op :=
  match mongoF with
  | .fail _ =>
      (⟨404, [("error", .str "not found")]⟩, st, [Op.mongoFindId id])
  | .ok =>
    match List.lookup id st.mongo with
    | none =>
        (⟨404, [("error", .str "not found")]⟩, st, [Op.mongoFindId id])
    | some fields =>
      let cached := match redisF with
        | .fail _ => ""
        | .ok => (List.lookup ("item:" ++ id) st.redis).getD ""
      (⟨200, [("item", .item (decodeItem id fields)),
              ("redis_cached", .str cached)]⟩, st,
        [Op.mongoFindId id, Op.redisGet ("item:" ++ id)])

/-! ### Variant B handlers (second program of `src/main.go`) -/

/-- GET /redis/:val of variant B: SET val=val with a 60-second expiry
then GET it back; fail-fast with 500 on either driver error. -/
def handleRedis (val : String) (setF getF : Fault) (st : St) :
    Response × St × List Op :=
  match setF with
  | .fail msg =>
      (⟨500, [("error", .str ("Redis SET failed: " ++ msg))]⟩, st,
        [Op.redisSet val val 60])
  | .ok =>
    let st1 := { st with redis := (val, val) :: st.redis }
    match getF with
    | .fail msg =>
        (⟨500, [("error", .str ("Redis GET failed: " ++ msg))]⟩, st1,
          [Op.redisSet val val 60, Op.redisGet val])
    | .ok =>
      match List.lookup val st1.redis with
      | none =>
          (⟨500, [("error", .str "Redis GET failed: redis: nil")]⟩, st1,
            [Op.redisSet val val 60, Op.redisGet val])
      | some v =>
          (⟨200, [("source", .str "redis"), ("key", .str val), ("value", .str v)]⟩,
            st1, [Op.redisSet val val 60, Op.redisGet val])

/-- GET /postgres/:val of variant B: INSERT the value as a new `name` row,
then SELECT the newest row whose name equals it; fail-fast with 500 on
either driver error. -/
def handlePostgres (val : String) (insF selF : Fault) (st : St) :
    Response × St × List Op :=
  match insF with
  | .fail msg =>
      (⟨500, [("error", .str ("Postgres INSERT failed: " ++ msg))]⟩, st,
        [Op.pgInsert val])
  | .ok =>
    let st1 := { st with pg := st.pg ++ [val] }
    match selF with
    | .fail msg =>
        (⟨500, [("error", .str ("Postgres SELECT failed: " ++ msg))]⟩, st1,
          [Op.pgInsert val, Op.pgSelect])
    | .ok =>
      match st1.pg.reverse.find? (· == val) with
      | none =>
          (⟨500, [("error", .str "Postgres SELECT failed: sql: no rows in result set")]⟩,
            st1, [Op.pgInsert val, Op.pgSelect])
      | some name =>
          (⟨200, [("source", .str "postgres"), ("value", .str name)]⟩, st1,
            [Op.pgInsert val, Op.pgSelect])

/-- The per-call fault oracles of one aggregate-handler invocation, in
backend order: redis set/get, mongo write/find, postgres insert/select,
mysql insert/select. -/
structure AggFaults where
  rset : Fault := .ok
  rget : Fault := .ok
  mwrite : Fault := .ok
  mfind : Fault := .ok
  pgins : Fault := .ok
  pgsel : Fault := .ok
  myins : Fault := .ok
  mysel : Fault := .ok
deriving DecidableEq, Repr

/-- GET /all/:val of variant B: best-effort across all four stores.  Only
the redis SET error is reported (under "redis_error", skipping the GET);
mongo, postgres and mysql errors are discarded and their keys are filled
with whatever the ignored reads produced (null document or empty
string). -/
def handleAll (val : String) (f : AggFaults) (st : St) :
    Response × St × List Op :=
  let redisPart : List (String × JVal) × St × List Op :=
    match f.rset with
    | .ok =>
      let st1 := { st with redis := (val, val) :: st.redis }
      let v := match f.rget with
        | .ok => (List.lookup val st1.redis).getD ""
        | .fail _ => ""
      ([("redis", .str v)], st1, [Op.redisSet val val 60, Op.redisGet val])
    | .fail msg =>
      ([("redis_error", .str msg)], st, [Op.redisSet val val 60])
  let st1 := redisPart.2.1
  let st2 := match f.mwrite with
    | .ok => { st1 with mongo := mongoUpsertDoc st1.mongo val [("value", val)] }
    | .fail _ => st1
  let mDoc := match f.mfind with
    | .ok =>
      match List.lookup val st2.mongo with
      | some fields => JVal.doc (("_id", val) :: fields)
      | none => JVal.null
    | .fail _ => JVal.null
  let st3 := match f.pgins with
    | .ok => { st2 with pg := st2.pg ++ [val] }
    | .fail _ => st2
  let pgName := match f.pgsel with
    | .ok => (st3.pg.reverse.find? (· == val)).getD ""
    | .fail _ => ""
  let st4 := match f.myins with
    | .ok => { st3 with my := st3.my ++ [val] }
    | .fail _ => st3
  let myName := match f.mysel with
    | .ok => (st4.my.reverse.find? (· == val)).getD ""
    | .fail _ => ""
  (⟨200, ("source", .str "all") :: redisPart.1
      ++ [("mongo", mDoc), ("postgres", .str pgName), ("mysql", .str myName)]⟩,
    st4,
    redisPart.2.2 ++ [Op.mongoUpsert val, Op.mongoFindId val,
      Op.pgInsert val, Op.pgSelect, Op.myInsert val, Op.mySelect])

/-! ### Variant A handlers (first program of `src/main.go`) -/

/-- GET /healthz of variant A: a constant 200 response, independent of any
backend state, touching no backend. -/
def healthz (st : St) : Response × St × List Op :=
  (⟨200, [("status", .str "ok")]⟩, st, [])

/-- GET /redis-only of variant A: SET a timestamp-derived key to a fixed
value with a 60-second expiry, then GET it back; fail-fast with 500.  The
key's variable part, `time.Now().UnixNano()`, enters as the `nanos`
parameter. -/
def handleRedisOnlyA (nanos : Nat) (setF getF : Fault) (st : St) :
    Response × St × List Op :=
  let key := "test-key-" ++ toString nanos
  match setF with
  | .fail msg =>
      (⟨500, [("error", .str msg)]⟩, st, [Op.redisSet key "hello-redis" 60])
  | .ok =>
    let st1 := { st with redis := (key, "hello-redis") :: st.redis }
    match getF with
    | .fail msg =>
        (⟨500, [("error", .str msg)]⟩, st1,
          [Op.redisSet key "hello-redis" 60, Op.redisGet key])
    | .ok =>
      match List.lookup key st1.redis with
      | none =>
          (⟨500, [("error", .str "redis: nil")]⟩, st1,
            [Op.redisSet key "hello-redis" 60, Op.redisGet key])
      | some v =>
          (⟨200, [("source", .str "redis"), ("key", .str key), ("value", .str v)]⟩,
            st1, [Op.redisSet key "hello-redis" 60, Op.redisGet key])

/-- GET /all-dbs of variant A: fixed-payload writes and read-backs across
all four stores; every driver error is discarded, no error key is ever
added, the status is always 200.  The inserted Mongo document's timestamp
enters, already rendered, as `ts`. -/
def handleAllDBs (ts : String) (f : AggFaults) (st : St) :
    Response × St × List Op :=
  let st1 := match f.rset with
    | .ok => { st with redis := ("all-key", "value") :: st.redis }
    | .fail _ => st
  let redisVal := match f.rget with
    | .ok => (List.lookup "all-key" st1.redis).getD ""
    | .fail _ => ""
  let st2 := match f.mwrite with
    | .ok => { st1 with
        mongoDocs := st1.mongoDocs ++ [[("name", "all-item"), ("ts", ts)]] }
    | .fail _ => st1
  let mongoDoc := match f.mfind with
    | .ok =>
      match st2.mongoDocs.find? (fun d => List.lookup "name" d == some "all-item") with
      | some d => JVal.doc d
      | none => JVal.null
    | .fail _ => JVal.null
  let st3 := match f.pgins with
    | .ok => { st2 with pg := st2.pg ++ ["all-pg"] }
    | .fail _ => st2
  let pgName := match f.pgsel with
    | .ok => st3.pg.getLast?.getD ""
    | .fail _ => ""
  let st4 := match f.myins with
    | .ok => { st3 with my := st3.my ++ ["all-mysql"] }
    | .fail _ => st3
  let myName := match f.mysel with
    | .ok => st4.my.getLast?.getD ""
    | .fail _ => ""
  (⟨200, [("redis", .str redisVal), ("mongo", mongoDoc),
          ("postgres", .str pgName), ("mysql", .str myName)]⟩,
    st4,
    [Op.redisSet "all-key" "value" 60, Op.redisGet "all-key",
     Op.mongoInsert "all-item", Op.mongoFindName "all-item",
     Op.pgInsert "all-pg", Op.pgSelect,
     Op.myInsert "all-mysql", Op.mySelect])

/-- GET /kitchen-sink of variant A: like /all-dbs with its own fixed
payloads, plus a trailing outbound HTTP GET whose status (or 0 on error,
modelled by `httpRes = none`) is reported; every driver error is
discarded, the status is always 200. -/
def handleKitchenSink (ts : String) (httpRes : Option Int) (f : AggFaults)
    (st : St) : Response × St × List Op :=
  let st1 := match f.rset with
    | .ok => { st with redis := ("sink-key", "value") :: st.redis }
    | .fail _ => st
  let redisVal := match f.rget with
    | .ok => (List.lookup "sink-key" st1.redis).getD ""
    | .fail _ => ""
  let st2 := match f.mwrite with
    | .ok => { st1 with
        mongoDocs := st1.mongoDocs ++ [[("name", "sink-item"), ("ts", ts)]] }
    | .fail _ => st1
  let mongoDoc := match f.mfind with
    | .ok =>
      match st2.mongoDocs.find? (fun d => List.lookup "name" d == some "sink-item") with
      | some d => JVal.doc d
      | none => JVal.null
    | .fail _ => JVal.null
  let st3 := match f.pgins with
    | .ok => { st2 with pg := st2.pg ++ ["sink-pg"] }
    | .fail _ => st2
  let pgName := match f.pgsel with
    | .ok => st3.pg.getLast?.getD ""
    | .fail _ => ""
  let st4 := match f.myins with
    | .ok => { st3 with my := st3.my ++ ["sink-mysql"] }
    | .fail _ => st3
  let myName := match f.mysel with
    | .ok => st4.my.getLast?.getD ""
    | .fail _ => ""
  let httpStatus : Int := match httpRes with
    | some s => s
    | none => 0
  (⟨200, [("redis", .str redisVal), ("mongo", mongoDoc),
          ("postgres", .str pgName), ("mysql", .str myName),
          ("httpStatus", .num httpStatus)]⟩,
    st4,
    [Op.redisSet "sink-key" "value" 60, Op.redisGet "sink-key",
     Op.mongoInsert "sink-item", Op.mongoFindName "sink-item",
     Op.pgInsert "sink-pg", Op.pgSelect,
     Op.myInsert "sink-mysql", Op.mySelect,
     Op.httpGet "https://httpbin.org/get"])

/-- A one-item backend state used to exercise `getItem` at a concrete
input: the document store holds one item under id "x". -/
def stW : St := { mongo := [("x", [("name", "n"), ("value", "v")])] }

/-! ## Claims -/

/-- C10: every request to GET /healthz, whatever the backend state,
returns status 200 with body status ok, touching no backend and leaving
the state unchanged. -/
theorem healthz_always_ok (st : St) :
    healthz st = (⟨200, [("status", JVal.str "ok")]⟩, st, ([] : List Op)) := rfl

/-- C4: a successful (status 200) response of GET /redis/:val has its
value field equal to val — the handler writes val under key val and the
read-back in the same request returns exactly the value written.  This
holds for both implementations of the route: variant B's handleRedis and
variant C's handleRedisOnly. -/
theorem redis_val_roundtrip (val : String) (sF gF : Fault) (st : St) :
    ((handleRedis val sF gF st).1.status = 200 →
      List.lookup "value" (handleRedis val sF gF st).1.body =
        some (JVal.str val)) ∧
    ((handleRedisOnly val sF gF st).1.status = 200 →
      List.lookup "value" (handleRedisOnly val sF gF st).1.body =
        some (JVal.str val)) := by
  constructor
  · intro h
    cases sF with
    | fail msg => simp [handleRedis] at h
    | ok =>
      cases gF with
      | fail msg => simp [handleRedis] at h
      | ok => simp [handleRedis, List.lookup]
  · intro h
    cases sF with
    | fail msg => simp [handleRedisOnly] at h
    | ok =>
      cases gF with
      | fail msg => simp [handleRedisOnly] at h
      | ok => simp [handleRedisOnly, List.lookup]

/-- Witness for C4 at val = "a" on the empty state, for both
implementations of the route. -/
theorem redis_val_roundtrip_witness :
    List.lookup "value" (handleRedis "a" .ok .ok St0).1.body =
      some (JVal.str "a") ∧
    List.lookup "value" (handleRedisOnly "a" .ok .ok St0).1.body =
      some (JVal.str "a") :=
  ⟨(redis_val_roundtrip "a" .ok .ok St0).1 rfl,
   (redis_val_roundtrip "a" .ok .ok St0).2 rfl⟩

/-- C5: GET /api/item/:id for an id holding no document in the document
store returns 404 with an error body, whatever the fault oracles say. -/
theorem getItem_missing_404 (id : String) (mF rF : Fault) (st : St)
    (h : List.lookup id st.mongo = none) :
    (getItem id mF rF st).1 = ⟨404, [("error", JVal.str "not found")]⟩ := by
  cases mF with
  | fail msg => rfl
  | ok => simp [getItem, h]

/-- Witness for C5 at id = "x" on the empty state. -/
theorem getItem_missing_404_witness :
    (getItem "x" .ok .ok St0).1 = ⟨404, [("error", JVal.str "not found")]⟩ :=
  getItem_missing_404 "x" .ok .ok St0 rfl

/-- C3 counterexample: a well-formed JSON body that merely lacks the id
field binds into `Item` with an empty-string id (the struct has no
required-field tags), so the handler proceeds, performs both backend
writes, and answers 200 — not the 400 the claim demands. -/
theorem createItem_missing_id_counterexample :
    (createItem (ReqBody.obj [("name", .str "n"), ("value", .str "v")])
        .ok .ok St0).1.status = 200 ∧
    (createItem (ReqBody.obj [("name", .str "n"), ("value", .str "v")])
        .ok .ok St0).2.2 =
      [Op.mongoUpsert "", Op.redisSet "item:" "v" 600] := by
  exact ⟨rfl, rfl⟩

/-- C3 amended: POST /api/item answers 400 with no backend write and an
unchanged state exactly when the body fails to bind into the `Item`
struct (invalid JSON, a non-object body, or a wrong-typed field); a JSON
object merely lacking the id field binds with an empty-string id and is
processed normally, answering 200 when the backends are up. -/
theorem createItem_bind_error_400 (body : ReqBody) (mF rF : Fault) (st : St) :
    (∀ msg, bindJSONItem body = .error msg →
      (createItem body mF rF st).1.status = 400 ∧
      (createItem body mF rF st).2.1 = st ∧
      (createItem body mF rF st).2.2 = []) ∧
    (∀ n v, (createItem (ReqBody.obj [("name", .str n), ("value", .str v)])
        .ok .ok st).1.status = 200) := by
  constructor
  · intro msg h
    simp [createItem, h]
  · intro n v
    rfl

/-- Witness for C3 amended: a syntactically invalid body yields 400 with
no write on the empty state. -/
theorem createItem_bind_error_400_witness :
    (createItem ReqBody.malformed .ok .ok St0).1.status = 400 ∧
    (createItem ReqBody.malformed .ok .ok St0).2.1 = St0 ∧
    (createItem ReqBody.malformed .ok .ok St0).2.2 = [] :=
  (createItem_bind_error_400 ReqBody.malformed .ok .ok St0).1
    "invalid character in request body" rfl

/-- C1: when POST /api/item binds an item and succeeds with 200, a GET
/api/item/:id on the resulting state with the same id (its own backend
calls succeeding) answers 200 with exactly the submitted item and with
redis_cached equal to the submitted value. -/
theorem create_then_get_roundtrip (body : ReqBody) (it : Item)
    (mF rF : Fault) (st : St)
    (hbind : bindJSONItem body = .ok it)
    (hok : (createItem body mF rF st).1.status = 200) :
    (getItem it.id .ok .ok (createItem body mF rF st).2.1).1 =
      ⟨200, [("item", JVal.item it), ("redis_cached", JVal.str it.value)]⟩ := by
  obtain ⟨i, n, v⟩ := it
  cases mF with
  | fail msg => simp [createItem, hbind] at hok
  | ok =>
    cases rF with
    | fail msg => simp [createItem, hbind] at hok
    | ok =>
      cases hm : List.lookup i st.mongo with
      | none =>
          simp [createItem, hbind, getItem, mongoUpsertDoc, hm, decodeItem,
            mergeFields, List.lookup]
      | some old =>
          simp [createItem, hbind, getItem, mongoUpsertDoc, hm, decodeItem,
            mergeFields, List.lookup]

/-- Witness for C1: the round trip at a concrete item on the empty
state. -/
theorem create_then_get_roundtrip_witness :
    (getItem "i" .ok .ok
      (createItem (ReqBody.obj [("id", .str "i"), ("name", .str "n"),
        ("value", .str "v")]) .ok .ok St0).2.1).1 =
      ⟨200, [("item", JVal.item ⟨"i", "n", "v"⟩),
             ("redis_cached", JVal.str "v")]⟩ :=
  create_then_get_roundtrip
    (ReqBody.obj [("id", .str "i"), ("name", .str "n"), ("value", .str "v")])
    ⟨"i", "n", "v"⟩ .ok .ok St0 rfl rfl

/-- C8: GET /api/item/:id answers 404 not-found on any document-store
error at all (unreachable backend, decode failure, missing document),
never 500; and on the 200 path a failed cache read is silently discarded,
leaving redis_cached as the empty string. -/
theorem getItem_error_handling (id msg : String) (rF : Fault) (st : St) :
    ((getItem id (.fail msg) rF st).1 =
      ⟨404, [("error", JVal.str "not found")]⟩) ∧
    (∀ fields, List.lookup id st.mongo = some fields →
      (getItem id .ok (.fail msg) st).1.status = 200 ∧
      List.lookup "redis_cached" (getItem id .ok (.fail msg) st).1.body =
        some (JVal.str "")) := by
  refine ⟨rfl, ?_⟩
  intro fields h
  simp [getItem, h, List.lookup]

/-- Witness for C8 at id = "x" on a one-item state. -/
theorem getItem_error_handling_witness :
    ((getItem "x" (.fail "down") .ok stW).1 =
      ⟨404, [("error", JVal.str "not found")]⟩) ∧
    ((getItem "x" .ok (.fail "down") stW).1.status = 200 ∧
      List.lookup "redis_cached" (getItem "x" .ok (.fail "down") stW).1.body =
        some (JVal.str "")) :=
  ⟨(getItem_error_handling "x" "down" .ok stW).1,
   (getItem_error_handling "x" "down" .ok stW).2 [("name", "n"), ("value", "v")] rfl⟩

/-- C6: single-backend handlers fail fast — when the first backend call of
handleRedis, handlePostgres, handleMongoOnly or handleRedisOnly errors,
the handler answers 500 with a free-text error message, leaves the state
unchanged, and its trace holds only that failed attempt (in particular no
read-back follows a failed write); and when the second call errors after
a successful write, the handler likewise answers 500. -/
theorem singles_fail_fast (val msg : String) (g : Fault) (st : St) :
    ((handleRedis val (.fail msg) g st).1 =
        ⟨500, [("error", JVal.str ("Redis SET failed: " ++ msg))]⟩ ∧
      (handleRedis val (.fail msg) g st).2.1 = st ∧
      (handleRedis val (.fail msg) g st).2.2 = [Op.redisSet val val 60]) ∧
    ((handleRedis val .ok (.fail msg) st).1.status = 500) ∧
    ((handlePostgres val (.fail msg) g st).1 =
        ⟨500, [("error", JVal.str ("Postgres INSERT failed: " ++ msg))]⟩ ∧
      (handlePostgres val (.fail msg) g st).2.1 = st ∧
      (handlePostgres val (.fail msg) g st).2.2 = [Op.pgInsert val]) ∧
    ((handlePostgres val .ok (.fail msg) st).1.status = 500) ∧
    ((handleMongoOnly val (.fail msg) g st).1 =
        ⟨500, [("error", JVal.str ("mongo upsert: " ++ msg))]⟩ ∧
      (handleMongoOnly val (.fail msg) g st).2.1 = st ∧
      (handleMongoOnly val (.fail msg) g st).2.2 = [Op.mongoUpsert val]) ∧
    ((handleMongoOnly val .ok (.fail msg) st).1.status = 500) ∧
    ((handleRedisOnly val (.fail msg) g st).1 =
        ⟨500, [("error", JVal.str ("redis SET: " ++ msg))]⟩ ∧
      (handleRedisOnly val (.fail msg) g st).2.1 = st ∧
      (handleRedisOnly val (.fail msg) g st).2.2 = [Op.redisSet val val 600]) ∧
    ((handleRedisOnly val .ok (.fail msg) st).1.status = 500) := by
  exact ⟨⟨rfl, rfl, rfl⟩, rfl, ⟨rfl, rfl, rfl⟩, rfl, ⟨rfl, rfl, rfl⟩, rfl,
    ⟨rfl, rfl, rfl⟩, rfl⟩

/-- C2 counterexample: on GET /all/:val with exactly one failing backend
operation — the Mongo upsert — the response still has status 200, but it
carries no mongo_error key at all: the failure is silently discarded and
the mongo key holds the null document instead. -/
theorem handleAll_no_mongo_error_counterexample :
    (handleAll "a" { mwrite := Fault.fail "mongo down" } St0).1.status = 200 ∧
    List.lookup "mongo_error"
      (handleAll "a" { mwrite := Fault.fail "mongo down" } St0).1.body = none ∧
    List.lookup "mongo"
      (handleAll "a" { mwrite := Fault.fail "mongo down" } St0).1.body =
      some JVal.null := by
  exact ⟨rfl, rfl, rfl⟩

/-- C2 amended: aggregate endpoints always answer 200 whatever fails, and
the non-failing backends' keys stay populated under their normal names —
but an error key is produced only for the cache write of handleAll
(redis_error, with the redis key then absent); failures of the other
backends in handleAll, and of every backend in handleAllDBs and
handleKitchenSink, are silently swallowed, the normal key remaining with
a null or zero-value read-back. -/
theorem aggregate_error_reporting (val msg ts : String) (hr : Option Int)
    (f : AggFaults) (st : St) :
    ((handleAll val f st).1.status = 200) ∧
    ((handleAll val { f with rset := .ok } st).1.body.map Prod.fst =
      ["source", "redis", "mongo", "postgres", "mysql"]) ∧
    ((handleAll val { f with rset := .fail msg } st).1.body.map Prod.fst =
      ["source", "redis_error", "mongo", "postgres", "mysql"]) ∧
    (List.lookup "redis_error"
      (handleAll val { f with rset := .fail msg } st).1.body =
      some (JVal.str msg)) ∧
    ((handleAllDBs ts f st).1.status = 200) ∧
    ((handleAllDBs ts f st).1.body.map Prod.fst =
      ["redis", "mongo", "postgres", "mysql"]) ∧
    ((handleKitchenSink ts hr f st).1.status = 200) ∧
    ((handleKitchenSink ts hr f st).1.body.map Prod.fst =
      ["redis", "mongo", "postgres", "mysql", "httpStatus"]) := by
  exact ⟨rfl, rfl, rfl, rfl, rfl, rfl, rfl, rfl⟩

/-- C7 counterexample: in POST /api/item the cache write does NOT precede
the document-store write — at a concrete well-formed body the trace puts
the Mongo upsert first and the Redis set second, so no cache write occurs
before the first document-store write. -/
theorem createItem_cache_order_counterexample :
    precedes isRedisSet isMongoWrite
      (createItem (ReqBody.obj [("id", .str "i"), ("name", .str "n"),
        ("value", .str "v")]) .ok .ok St0).2.2 = false ∧
    (createItem (ReqBody.obj [("id", .str "i"), ("name", .str "n"),
        ("value", .str "v")]) .ok .ok St0).2.2 =
      [Op.mongoUpsert "i", Op.redisSet "item:i" "v" 600] := by
  exact ⟨rfl, rfl⟩

/-- C7 amended: the aggregate GET handlers do follow the fixed backend
order cache, document store, Postgres, MySQL, outbound HTTP, each write
followed by its read-back (the read-back being skipped in handleAll when
the cache write fails); but POST /api/item instead writes the document
store first and the cache second, with no read-back of either. -/
theorem multi_backend_op_order (val ts i n v : String) (hr : Option Int)
    (f : AggFaults) (st : St) :
    ((handleAll val { f with rset := .ok } st).2.2 =
      [Op.redisSet val val 60, Op.redisGet val, Op.mongoUpsert val,
       Op.mongoFindId val, Op.pgInsert val, Op.pgSelect,
       Op.myInsert val, Op.mySelect]) ∧
    (∀ msg, (handleAll val { f with rset := .fail msg } st).2.2 =
      [Op.redisSet val val 60, Op.mongoUpsert val, Op.mongoFindId val,
       Op.pgInsert val, Op.pgSelect, Op.myInsert val, Op.mySelect]) ∧
    ((handleAllDBs ts f st).2.2 =
      [Op.redisSet "all-key" "value" 60, Op.redisGet "all-key",
       Op.mongoInsert "all-item", Op.mongoFindName "all-item",
       Op.pgInsert "all-pg", Op.pgSelect,
       Op.myInsert "all-mysql", Op.mySelect]) ∧
    ((handleKitchenSink ts hr f st).2.2 =
      [Op.redisSet "sink-key" "value" 60, Op.redisGet "sink-key",
       Op.mongoInsert "sink-item", Op.mongoFindName "sink-item",
       Op.pgInsert "sink-pg", Op.pgSelect,
       Op.myInsert "sink-mysql", Op.mySelect,
       Op.httpGet "https://httpbin.org/get"]) ∧
    ((createItem (ReqBody.obj [("id", .str i), ("name", .str n),
        ("value", .str v)]) .ok .ok st).2.2 =
      [Op.mongoUpsert i, Op.redisSet ("item:" ++ i) v 600]) := by
  exact ⟨rfl, fun msg => rfl, rfl, rfl, rfl⟩

/-- C9: every cache write of every modelled handler carries an expiry, and
that expiry lies between 60 seconds and 10 minutes inclusive (60 s in the
main.go handlers, 10 min in the part_001 handlers); handlers without a
cache write satisfy the bound vacuously. -/
theorem cache_write_expiry_bounds (val ts id : String) (nanos : Nat)
    (body : ReqBody) (hr : Option Int) (sF gF : Fault) (f : AggFaults)
    (st : St) :
    ((handleRedisOnly val sF gF st).2.2.all expiryOk = true) ∧
    ((handleRedis val sF gF st).2.2.all expiryOk = true) ∧
    ((handleRedisOnlyA nanos sF gF st).2.2.all expiryOk = true) ∧
    ((handleMongoOnly val sF gF st).2.2.all expiryOk = true) ∧
    ((handlePostgres val sF gF st).2.2.all expiryOk = true) ∧
    ((handleAll val f st).2.2.all expiryOk = true) ∧
    ((handleAllDBs ts f st).2.2.all expiryOk = true) ∧
    ((handleKitchenSink ts hr f st).2.2.all expiryOk = true) ∧
    ((createItem body sF gF st).2.2.all expiryOk = true) ∧
    ((getItem id sF gF st).2.2.all expiryOk = true) ∧
    ((healthz st).2.2.all expiryOk = true) := by
  obtain ⟨rs, rg, mw, mf, pgi, pgs, myi, mys⟩ := f
  refine ⟨?_, ?_, ?_, ?_, ?_, ?_, rfl, rfl, ?_, ?_, rfl⟩
  · cases sF <;> cases gF <;>
      simp [handleRedisOnly, expiryOk, List.lookup]
  · cases sF <;> cases gF <;>
      simp [handleRedis, expiryOk, List.lookup]
  · cases sF <;> cases gF <;>
      simp [handleRedisOnlyA, expiryOk, List.lookup]
  · cases sF with
    | fail m => simp [handleMongoOnly, expiryOk]
    | ok =>
      cases gF with
      | fail m => simp [handleMongoOnly, expiryOk]
      | ok =>
        simp [handleMongoOnly, expiryOk, mongoUpsertDoc, List.lookup]
        cases List.lookup val st.mongo <;> simp [expiryOk]
  · cases sF <;> cases gF <;>
      simp [handlePostgres, expiryOk]
  · cases rs <;> simp [handleAll, expiryOk]
  · cases hb : bindJSONItem body <;> cases sF <;> cases gF <;>
      simp [createItem, hb, expiryOk]
  · cases sF <;> cases gF <;> simp [getItem, expiryOk] <;>
      cases List.lookup id st.mongo <;> simp [expiryOk]

end MultiKind
